import Mathlib

/-
Verification of the spacecraft-state integrator and synthetic sensor-data
generator (src/src/physics/simulation.py and src/src/physics/sensors.py).
Machine floats are modelled as real numbers; numpy 3-vectors as `Vec3`;
random draws (np.random.normal / np.random.exponential) are passed in
explicitly as standard-distribution samples scaled by the code's scale
parameters.
-/

open scoped Classical

namespace Netra

/-- Three-component real vectors, mirroring the numpy arrays of the code. -/
@[ext]
structure Vec3 where
  x : ℝ
  y : ℝ
  z : ℝ

instance : Add Vec3 := ⟨fun v w => ⟨v.x + w.x, v.y + w.y, v.z + w.z⟩⟩

/-- Scalar multiple of a vector, for numpy scalar-times-array expressions. -/
def Vec3.smul (c : ℝ) (v : Vec3) : Vec3 := ⟨c * v.x, c * v.y, c * v.z⟩

/-- The zero vector, mirroring np.zeros(3). -/
def Vec3.zero : Vec3 := ⟨0, 0, 0⟩

/-- Euclidean norm, mirroring np.linalg.norm. -/
noncomputable def Vec3.norm (v : Vec3) : ℝ := Real.sqrt (v.x ^ 2 + v.y ^ 2 + v.z ^ 2)

/-- Dot product of two vectors. -/
def Vec3.dot (v w : Vec3) : ℝ := v.x * w.x + v.y * w.y + v.z * w.z

@[simp]
theorem Vec3.add_x (v w : Vec3) : (v + w).x = v.x + w.x := rfl

@[simp]
theorem Vec3.add_y (v w : Vec3) : (v + w).y = v.y + w.y := rfl

@[simp]
theorem Vec3.add_z (v w : Vec3) : (v + w).z = v.z + w.z := rfl

@[simp]
theorem Vec3.smul_x (c : ℝ) (v : Vec3) : (Vec3.smul c v).x = c * v.x := rfl

@[simp]
theorem Vec3.smul_y (c : ℝ) (v : Vec3) : (Vec3.smul c v).y = c * v.y := rfl

@[simp]
theorem Vec3.smul_z (c : ℝ) (v : Vec3) : (Vec3.smul c v).z = c * v.z := rfl

theorem Vec3.norm_nonneg (v : Vec3) : 0 ≤ v.norm := Real.sqrt_nonneg _

@[simp]
theorem Vec3.norm_zero_vec : Vec3.norm ⟨0, 0, 0⟩ = 0 := by
  simp [Vec3.norm]

@[simp]
theorem Vec3.norm_unitX : Vec3.norm ⟨1, 0, 0⟩ = 1 := by
  simp [Vec3.norm]

@[simp]
theorem Vec3.norm_zero : Vec3.zero.norm = 0 := Vec3.norm_zero_vec

theorem Vec3.norm_smul (c : ℝ) (v : Vec3) : (Vec3.smul c v).norm = |c| * v.norm := by
  unfold Vec3.norm Vec3.smul
  rw [show (c * v.x) ^ 2 + (c * v.y) ^ 2 + (c * v.z) ^ 2
        = c ^ 2 * (v.x ^ 2 + v.y ^ 2 + v.z ^ 2) by ring]
  rw [Real.sqrt_mul (sq_nonneg c), Real.sqrt_sq_eq_abs]

theorem Vec3.norm_eq_zero_iff (v : Vec3) : v.norm = 0 ↔ v = Vec3.zero := by
  have hx := sq_nonneg v.x
  have hy := sq_nonneg v.y
  have hz := sq_nonneg v.z
  constructor
  · intro h
    have hsum : v.x ^ 2 + v.y ^ 2 + v.z ^ 2 = 0 := by
      have := (Real.sqrt_eq_zero (by linarith)).mp h
      linarith [this]
    have hvx : v.x = 0 := by nlinarith
    have hvy : v.y = 0 := by nlinarith
    have hvz : v.z = 0 := by nlinarith
    unfold Vec3.zero
    ext <;> simp [hvx, hvy, hvz]
  · intro h
    rw [h]
    exact Vec3.norm_zero_vec

/-- Parameters controlling the space flight simulation (defaults from the code). -/
structure SimulationParameters where
  mission_duration : ℝ := 3600
  time_step : ℝ := 1
  mass : ℝ := 1000
  thrust : ℝ := 10000
  fuel_capacity : ℝ := 500
  fuel_consumption_rate : ℝ := 0.1
  initial_altitude : ℝ := 400000
  initial_velocity : ℝ := 7800
  orbital_inclination : ℝ := 0
  atmospheric_density : ℝ := 1e-12
  drag_coefficient : ℝ := 2.2
  spacecraft_area : ℝ := 10
  sensor_noise_level : ℝ := 0.01
  sensor_failure_rate : ℝ := 0.001

/-- The default parameter set SimulationParameters(). -/
def defaultParameters : SimulationParameters := {}

/-- Earth radius constant of SpaceFlightSimulation (meters). -/
def EARTH_RADIUS : ℝ := 6.371e6

/-- Earth mass constant of SpaceFlightSimulation (kilograms). -/
def EARTH_MASS : ℝ := 5.972e24

/-- Gravitational constant of SpaceFlightSimulation. -/
def GRAVITATIONAL_CONSTANT : ℝ := 6.674e-11

/-- Current state of the spacecraft simulation. -/
structure SimulationState where
  time : ℝ
  position : Vec3
  velocity : Vec3
  acceleration : Vec3
  fuel_remaining : ℝ
  altitude : ℝ
  speed : ℝ
  is_active : Bool := true

/-- SpaceFlightSimulation.calculate_gravitational_force. -/
noncomputable def calculate_gravitational_force (p : SimulationParameters)
    (position : Vec3) : Vec3 :=
  let r_magnitude := position.norm
  if r_magnitude = 0 then Vec3.zero
  else
    let force_magnitude :=
      GRAVITATIONAL_CONSTANT * EARTH_MASS * p.mass / r_magnitude ^ 2
    let force_direction := Vec3.smul (-(1 / r_magnitude)) position
    Vec3.smul force_magnitude force_direction

/-- SpaceFlightSimulation.calculate_atmospheric_drag. -/
noncomputable def calculate_atmospheric_drag (p : SimulationParameters)
    (velocity : Vec3) (altitude : ℝ) : Vec3 :=
  if altitude > 600000 then Vec3.zero
  else
    let scale_height : ℝ := 8000
    let density := p.atmospheric_density * Real.exp (-altitude / scale_height)
    let speed := velocity.norm
    if speed = 0 then Vec3.zero
    else
      let drag_magnitude :=
        0.5 * density * speed ^ 2 * p.drag_coefficient * p.spacecraft_area
      let drag_direction := Vec3.smul (-(1 / speed)) velocity
      Vec3.smul drag_magnitude drag_direction

/-- SpaceFlightSimulation.calculate_thrust_force: returns the thrust force
vector together with the fuel consumed over this step. -/
noncomputable def calculate_thrust_force (p : SimulationParameters)
    (fuel_remaining : ℝ) (thrust_vector : Vec3) : Vec3 × ℝ :=
  if fuel_remaining ≤ 0 then (Vec3.zero, 0)
  else
    let thrust_magnitude := thrust_vector.norm
    if thrust_magnitude = 0 then (Vec3.zero, 0)
    else
      let max_thrust := min thrust_magnitude p.thrust
      let fuel_consumed :=
        p.fuel_consumption_rate * (max_thrust / p.thrust) * p.time_step
      let thrust_direction := Vec3.smul (1 / thrust_magnitude) thrust_vector
      (Vec3.smul max_thrust thrust_direction, fuel_consumed)

/-- SpaceFlightSimulation.step, acting on the current state: a no-op on an
inactive state, otherwise the Euler advance of the code. -/
noncomputable def step (p : SimulationParameters) (s : SimulationState)
    (thrust_vector : Vec3) : SimulationState :=
  if s.is_active = false then s
  else
    let gravitational_force := calculate_gravitational_force p s.position
    let drag_force := calculate_atmospheric_drag p s.velocity s.altitude
    let thrust_pair := calculate_thrust_force p s.fuel_remaining thrust_vector
    let total_force := gravitational_force + drag_force + thrust_pair.1
    let acceleration := Vec3.smul (1 / p.mass) total_force
    let new_velocity := s.velocity + Vec3.smul p.time_step acceleration
    let new_position := s.position + Vec3.smul p.time_step new_velocity
    let new_fuel := max 0 (s.fuel_remaining - thrust_pair.2)
    let new_altitude := new_position.norm - EARTH_RADIUS
    let new_speed := new_velocity.norm
    { time := s.time + p.time_step
    , position := new_position
    , velocity := new_velocity
    , acceleration := acceleration
    , fuel_remaining := new_fuel
    , altitude := new_altitude
    , speed := new_speed
    , is_active :=
        decide (new_altitude > 100000 ∧ new_fuel > 0 ∧ s.time < p.mission_duration) }

/-- A simulation session: current state, state history, running flag. -/
structure SimSession where
  current : SimulationState
  history : List SimulationState
  is_running : Bool

/-- One step() call at the session level: on an active state the new state
becomes current and is appended to the history; on an inactive state the
call leaves the session untouched. -/
noncomputable def stepSession (p : SimulationParameters) (r : SimSession)
    (thrust_vector : Vec3) : SimSession :=
  if r.current.is_active = false then r
  else
    let s := step p r.current thrust_vector
    ⟨s, r.history ++ [s], r.is_running⟩

/-- A sequence of step() calls with the given thrust vectors. -/
noncomputable def stepsSession (p : SimulationParameters) :
    SimSession → List Vec3 → SimSession
  | r, [] => r
  | r, tv :: tvs => stepsSession p (stepSession p r tv) tvs

/-- The circular-orbit speed sqrt(G M / r) computed by reset(). -/
noncomputable def orbital_velocity (p : SimulationParameters) : ℝ :=
  Real.sqrt (GRAVITATIONAL_CONSTANT * EARTH_MASS /
    (EARTH_RADIUS + p.initial_altitude))

/-- The initial state built by SpaceFlightSimulation.reset(). -/
noncomputable def resetState (p : SimulationParameters) : SimulationState :=
  { time := 0
  , position := ⟨EARTH_RADIUS + p.initial_altitude, 0, 0⟩
  , velocity := ⟨0, orbital_velocity p, 0⟩
  , acceleration := Vec3.zero
  , fuel_remaining := p.fuel_capacity
  , altitude := p.initial_altitude
  , speed := orbital_velocity p
  , is_active := true }

/-- SpaceFlightSimulation.reset(): replaces the current state, the history
and the running flag of the session, whatever they were. -/
noncomputable def reset (p : SimulationParameters) (_old : SimSession) :
    SimSession :=
  ⟨resetState p, [resetState p], false⟩

/-- The list of states produced by successive step() calls starting from a
given state (the start state included), as recorded by the history. -/
noncomputable def runStates (p : SimulationParameters) :
    SimulationState → List Vec3 → List SimulationState
  | s, [] => [s]
  | s, tv :: tvs => s :: runStates p (step p s tv) tvs

/-- Helper: a run of step() calls starting from an inactive session changes
nothing. -/
theorem stepsSession_frozen (p : SimulationParameters) (r : SimSession)
    (hin : r.current.is_active = false) :
    ∀ tvs : List Vec3, stepsSession p r tvs = r := by
  intro tvs
  induction tvs with
  | nil => rfl
  | cons tv tvs ih =>
    have h1 : stepSession p r tv = r := by simp [stepSession, hin]
    simp [stepsSession, h1, ih]

/-- Claim C1: is_active becomes false exactly when the step's new altitude is
at most 100 km, its new fuel is at most 0, or the elapsed time at the step
call has reached the mission duration; and once false it stays false: every
subsequent step() returns the frozen current state and leaves the current
state and the state history unchanged. -/
theorem step_noop_when_inactive (p : SimulationParameters) (r : SimSession)
    (tvs : List Vec3) (tv : Vec3) (s : SimulationState)
    (hin : r.current.is_active = false) (hact : s.is_active = true) :
    step p r.current tv = r.current ∧
    stepsSession p r tvs = r ∧
    ((step p s tv).is_active = false ↔
      (step p s tv).altitude ≤ 100000 ∨ (step p s tv).fuel_remaining ≤ 0 ∨
        p.mission_duration ≤ s.time) := by
  refine ⟨by simp [step, hin], stepsSession_frozen p r hin tvs, ?_⟩
  have hne : (s.is_active = false) = False := by simp [hact]
  simp only [step, hne, if_false, decide_eq_false_iff_not, not_and_or, not_lt]

/-- A concrete inactive state used to instantiate the freeze theorems. -/
def frozenState : SimulationState :=
  { time := 10
  , position := ⟨7000000, 0, 0⟩
  , velocity := ⟨0, 7500, 0⟩
  , acceleration := ⟨0, 0, 0⟩
  , fuel_remaining := 0
  , altitude := 629000
  , speed := 7500
  , is_active := false }

/-- A concrete active state: spacecraft at the origin, at rest, with full
default fuel and an altitude field above the drag cutoff. -/
def activeState : SimulationState :=
  { time := 0
  , position := ⟨0, 0, 0⟩
  , velocity := ⟨0, 0, 0⟩
  , acceleration := ⟨0, 0, 0⟩
  , fuel_remaining := 500
  , altitude := 700000
  , speed := 0
  , is_active := true }

/-- Witness for C1 at concrete inputs. -/
theorem step_noop_when_inactive_witness :
    step defaultParameters frozenState Vec3.zero = frozenState ∧
    stepsSession defaultParameters ⟨frozenState, [frozenState], false⟩
      [Vec3.zero, Vec3.zero] = ⟨frozenState, [frozenState], false⟩ ∧
    ((step defaultParameters activeState Vec3.zero).is_active = false ↔
      (step defaultParameters activeState Vec3.zero).altitude ≤ 100000 ∨
        (step defaultParameters activeState Vec3.zero).fuel_remaining ≤ 0 ∨
        defaultParameters.mission_duration ≤ activeState.time) :=
  step_noop_when_inactive defaultParameters ⟨frozenState, [frozenState], false⟩
    [Vec3.zero, Vec3.zero] Vec3.zero activeState rfl rfl

/-- The unit thrust vector along x used by the concrete computations. -/
def c2Thrust : Vec3 := ⟨1, 0, 0⟩

/-- Counterexample to claim C2 as stated: at a concrete active state at the
origin, at rest, with a unit x thrust, the new position is not the forward
Euler update position + velocity * dt of the pre-update velocity (the code
advances the position with the updated velocity). -/
theorem step_position_not_forward_euler_cex :
    (step defaultParameters activeState c2Thrust).position ≠
      activeState.position +
        Vec3.smul defaultParameters.time_step activeState.velocity := by
  have hpos : (step defaultParameters activeState c2Thrust).position.x = 1 / 1000 := by
    norm_num [step, activeState, c2Thrust, defaultParameters,
      calculate_gravitational_force, calculate_atmospheric_drag,
      calculate_thrust_force, Vec3.smul, Vec3.zero, min_def]
  intro h
  have hx := congrArg Vec3.x h
  rw [hpos] at hx
  simp [activeState, Vec3.smul] at hx

/-- The acceleration (total force over mass) computed inside step. -/
noncomputable def step_acceleration (p : SimulationParameters)
    (s : SimulationState) (tv : Vec3) : Vec3 :=
  Vec3.smul (1 / p.mass)
    (calculate_gravitational_force p s.position +
      calculate_atmospheric_drag p s.velocity s.altitude +
      (calculate_thrust_force p s.fuel_remaining tv).1)

/-- Claim C2, amended: on an active state the velocity update is forward
Euler over dt, but the position update uses the already-updated velocity
(semi-implicit Euler): new_position = position + new_velocity * dt. -/
theorem step_semi_implicit_euler (p : SimulationParameters)
    (s : SimulationState) (tv : Vec3) (hact : s.is_active = true) :
    (step p s tv).acceleration = step_acceleration p s tv ∧
    (step p s tv).velocity =
      s.velocity + Vec3.smul p.time_step (step_acceleration p s tv) ∧
    (step p s tv).position =
      s.position + Vec3.smul p.time_step ((step p s tv).velocity) := by
  simp [step, step_acceleration, hact]

/-- Witness for the amended C2 at concrete inputs. -/
theorem step_semi_implicit_euler_witness :
    (step defaultParameters activeState c2Thrust).acceleration =
      step_acceleration defaultParameters activeState c2Thrust ∧
    (step defaultParameters activeState c2Thrust).velocity =
      activeState.velocity + Vec3.smul defaultParameters.time_step
        (step_acceleration defaultParameters activeState c2Thrust) ∧
    (step defaultParameters activeState c2Thrust).position =
      activeState.position + Vec3.smul defaultParameters.time_step
        ((step defaultParameters activeState c2Thrust).velocity) :=
  step_semi_implicit_euler defaultParameters activeState c2Thrust rfl

/-- Helper: one step never makes the fuel negative and never increases it,
for nonnegative consumption rate and time step and positive max thrust. -/
theorem fuel_step_bounds (p : SimulationParameters) (s : SimulationState)
    (tv : Vec3) (hrate : 0 ≤ p.fuel_consumption_rate) (hdt : 0 ≤ p.time_step)
    (hthr : 0 < p.thrust) (hf : 0 ≤ s.fuel_remaining) :
    0 ≤ (step p s tv).fuel_remaining ∧
      (step p s tv).fuel_remaining ≤ s.fuel_remaining := by
  by_cases hact : s.is_active = false
  · simp [step, hact, hf]
  · have hconsumed : 0 ≤ (calculate_thrust_force p s.fuel_remaining tv).2 := by
      unfold calculate_thrust_force
      by_cases h1 : s.fuel_remaining ≤ 0
      · simp [h1]
      · by_cases h2 : tv.norm = 0
        · simp [h1, h2]
        · have hmin : 0 ≤ min tv.norm p.thrust := le_min (Vec3.norm_nonneg tv) hthr.le
          simp only [h1, h2, if_false]
          exact mul_nonneg (mul_nonneg hrate (div_nonneg hmin hthr.le)) hdt
    constructor
    · simp [step, hact]
    · simp only [step, hact, if_false]
      exact max_le hf (sub_le_self _ hconsumed)

/-- Helper: the produced run always starts with its start state. -/
theorem runStates_head (p : SimulationParameters) (s : SimulationState) :
    ∀ tvs : List Vec3, (runStates p s tvs).head? = some s
  | [] => rfl
  | _ :: _ => rfl

/-- Helper: along any run from a state with nonnegative fuel, every state
has nonnegative fuel and fuel is non-increasing between adjacent states. -/
theorem runStates_fuel_aux (p : SimulationParameters)
    (hrate : 0 ≤ p.fuel_consumption_rate) (hdt : 0 ≤ p.time_step)
    (hthr : 0 < p.thrust) (tvs : List Vec3) :
    ∀ s : SimulationState, 0 ≤ s.fuel_remaining →
      (∀ t ∈ runStates p s tvs, 0 ≤ t.fuel_remaining) ∧
      List.Chain' (fun a b => b.fuel_remaining ≤ a.fuel_remaining)
        (runStates p s tvs) := by
  induction tvs with
  | nil =>
    intro s hf
    constructor
    · intro t ht
      rw [runStates] at ht
      simp at ht
      rw [ht]
      exact hf
    · rw [runStates]
      exact List.chain'_singleton s
  | cons tv tvs ih =>
    intro s hf
    obtain ⟨h0, h1⟩ := fuel_step_bounds p s tv hrate hdt hthr hf
    obtain ⟨ihmem, ihchain⟩ := ih (step p s tv) h0
    constructor
    · intro t ht
      rw [runStates] at ht
      rcases List.mem_cons.mp ht with rfl | ht'
      · exact hf
      · exact ihmem t ht'
    · rw [runStates, List.chain'_cons']
      refine ⟨?_, ihchain⟩
      intro b hb
      rw [runStates_head] at hb
      simp only [Option.mem_some_iff] at hb
      subst hb
      exact h1

/-- Claim C3: for any sequence of step() calls after a reset(), the fuel in
every produced state is nonnegative and fuel is monotonically non-increasing
from each state to the next along the run. -/
theorem fuel_nonneg_and_monotone (p : SimulationParameters)
    (hrate : 0 ≤ p.fuel_consumption_rate) (hdt : 0 ≤ p.time_step)
    (hthr : 0 < p.thrust) (hcap : 0 ≤ p.fuel_capacity) (tvs : List Vec3) :
    (∀ t ∈ runStates p (resetState p) tvs, 0 ≤ t.fuel_remaining) ∧
    List.Chain' (fun a b => b.fuel_remaining ≤ a.fuel_remaining)
      (runStates p (resetState p) tvs) :=
  runStates_fuel_aux p hrate hdt hthr tvs (resetState p) hcap

/-- Witness for C3 at the default parameters and a two-step thrust profile. -/
theorem fuel_nonneg_and_monotone_witness :
    (∀ t ∈ runStates defaultParameters (resetState defaultParameters)
        [c2Thrust, Vec3.zero], 0 ≤ t.fuel_remaining) ∧
    List.Chain' (fun a b => b.fuel_remaining ≤ a.fuel_remaining)
      (runStates defaultParameters (resetState defaultParameters)
        [c2Thrust, Vec3.zero]) :=
  fuel_nonneg_and_monotone defaultParameters
    (by norm_num [defaultParameters]) (by norm_num [defaultParameters])
    (by norm_num [defaultParameters]) (by norm_num [defaultParameters])
    [c2Thrust, Vec3.zero]

/-- Claim C6: reset() replaces the session with a fresh one: current state
with time 0, position of radius Earth radius plus the configured initial
altitude, altitude equal to the configured initial altitude, tangential
velocity and speed equal to sqrt(G M / r), full fuel, active; the history
holds exactly the fresh initial state and the running flag is cleared. -/
theorem reset_contract (p : SimulationParameters) (old : SimSession)
    (halt : 0 ≤ p.initial_altitude) :
    reset p old = ⟨resetState p, [resetState p], false⟩ ∧
    (resetState p).time = 0 ∧
    (resetState p).position.norm = EARTH_RADIUS + p.initial_altitude ∧
    (resetState p).altitude = p.initial_altitude ∧
    (resetState p).speed =
      Real.sqrt (GRAVITATIONAL_CONSTANT * EARTH_MASS /
        (EARTH_RADIUS + p.initial_altitude)) ∧
    (resetState p).velocity =
      ⟨0, Real.sqrt (GRAVITATIONAL_CONSTANT * EARTH_MASS /
        (EARTH_RADIUS + p.initial_altitude)), 0⟩ ∧
    Vec3.dot (resetState p).position (resetState p).velocity = 0 ∧
    (resetState p).speed = (resetState p).velocity.norm ∧
    (resetState p).fuel_remaining = p.fuel_capacity ∧
    (resetState p).is_active = true := by
  have hR : (0 : ℝ) ≤ EARTH_RADIUS := by norm_num [EARTH_RADIUS]
  have hr : 0 ≤ EARTH_RADIUS + p.initial_altitude := by linarith
  refine ⟨rfl, rfl, ?_, rfl, rfl, rfl, ?_, ?_, rfl, rfl⟩
  · show Vec3.norm ⟨EARTH_RADIUS + p.initial_altitude, 0, 0⟩ = _
    unfold Vec3.norm
    rw [show (EARTH_RADIUS + p.initial_altitude) ^ 2 + (0:ℝ) ^ 2 + (0:ℝ) ^ 2
          = (EARTH_RADIUS + p.initial_altitude) ^ 2 by ring]
    exact Real.sqrt_sq hr
  · show (EARTH_RADIUS + p.initial_altitude) * 0 + 0 * orbital_velocity p + 0 * 0 = 0
    ring
  · show orbital_velocity p = Vec3.norm ⟨0, orbital_velocity p, 0⟩
    unfold Vec3.norm
    rw [show (0:ℝ) ^ 2 + orbital_velocity p ^ 2 + (0:ℝ) ^ 2
          = orbital_velocity p ^ 2 by ring]
    have hv : 0 ≤ orbital_velocity p := Real.sqrt_nonneg _
    rw [Real.sqrt_sq hv]

/-- Witness for C6 at the default parameters and a concrete stale session. -/
theorem reset_contract_witness :
    reset defaultParameters ⟨frozenState, [frozenState, frozenState], true⟩ =
      ⟨resetState defaultParameters, [resetState defaultParameters], false⟩ ∧
    (resetState defaultParameters).time = 0 ∧
    (resetState defaultParameters).position.norm =
      EARTH_RADIUS + defaultParameters.initial_altitude ∧
    (resetState defaultParameters).altitude =
      defaultParameters.initial_altitude ∧
    (resetState defaultParameters).speed =
      Real.sqrt (GRAVITATIONAL_CONSTANT * EARTH_MASS /
        (EARTH_RADIUS + defaultParameters.initial_altitude)) ∧
    (resetState defaultParameters).velocity =
      ⟨0, Real.sqrt (GRAVITATIONAL_CONSTANT * EARTH_MASS /
        (EARTH_RADIUS + defaultParameters.initial_altitude)), 0⟩ ∧
    Vec3.dot (resetState defaultParameters).position
      (resetState defaultParameters).velocity = 0 ∧
    (resetState defaultParameters).speed =
      (resetState defaultParameters).velocity.norm ∧
    (resetState defaultParameters).fuel_remaining =
      defaultParameters.fuel_capacity ∧
    (resetState defaultParameters).is_active = true :=
  reset_contract defaultParameters ⟨frozenState, [frozenState, frozenState], true⟩
    (by norm_num [defaultParameters])

/-- Claim C8: with fuel available and a nonzero thrust vector, the thrust
force is the thrust vector rescaled to magnitude min(norm, max thrust), and
the fuel consumed is rate * (applied / max) * dt; with no fuel or a zero
thrust vector, the force is zero and no fuel is consumed. -/
theorem thrust_force_spec (p : SimulationParameters) (fuel : ℝ) (tv : Vec3)
    (hthr : 0 < p.thrust) :
    (0 < fuel → tv.norm ≠ 0 →
      (calculate_thrust_force p fuel tv).1 =
        Vec3.smul (min tv.norm p.thrust / tv.norm) tv ∧
      ((calculate_thrust_force p fuel tv).1).norm = min tv.norm p.thrust ∧
      (calculate_thrust_force p fuel tv).2 =
        p.fuel_consumption_rate * (min tv.norm p.thrust / p.thrust) *
          p.time_step) ∧
    ((fuel ≤ 0 ∨ tv = Vec3.zero) →
      calculate_thrust_force p fuel tv = (Vec3.zero, 0)) := by
  constructor
  · intro hfuel hnz
    have hns : ¬fuel ≤ 0 := not_le.mpr hfuel
    have hm : 0 < tv.norm := lt_of_le_of_ne (Vec3.norm_nonneg tv) (Ne.symm hnz)
    have hminn : 0 ≤ min tv.norm p.thrust := le_min hm.le hthr.le
    refine ⟨?_, ?_, ?_⟩
    · simp only [calculate_thrust_force, if_neg hns, if_neg hnz]
      unfold Vec3.smul
      ext <;> (simp only [] ; ring)
    · simp only [calculate_thrust_force, if_neg hns, if_neg hnz]
      rw [Vec3.norm_smul, Vec3.norm_smul]
      rw [abs_of_nonneg hminn, abs_of_nonneg (by positivity : (0:ℝ) ≤ 1 / tv.norm)]
      field_simp
    · simp only [calculate_thrust_force, if_neg hns, if_neg hnz]
  · rintro (hle | rfl)
    · simp [calculate_thrust_force, hle]
    · simp [calculate_thrust_force]

/-- Witness for C8: default parameters, 500 kg of fuel, unit x thrust. -/
theorem thrust_force_spec_witness :
    (calculate_thrust_force defaultParameters 500 ⟨1, 0, 0⟩).1 =
      Vec3.smul
        (min (Vec3.norm ⟨1, 0, 0⟩) defaultParameters.thrust /
          Vec3.norm ⟨1, 0, 0⟩) ⟨1, 0, 0⟩ ∧
    ((calculate_thrust_force defaultParameters 500 ⟨1, 0, 0⟩).1).norm =
      min (Vec3.norm ⟨1, 0, 0⟩) defaultParameters.thrust ∧
    (calculate_thrust_force defaultParameters 500 ⟨1, 0, 0⟩).2 =
      defaultParameters.fuel_consumption_rate *
        (min (Vec3.norm ⟨1, 0, 0⟩) defaultParameters.thrust /
          defaultParameters.thrust) * defaultParameters.time_step :=
  (thrust_force_spec defaultParameters 500 ⟨1, 0, 0⟩
      (by norm_num [defaultParameters])).1
    (by norm_num) (by rw [Vec3.norm_unitX]; norm_num)

/-- Per-sensor static configuration, mirroring the SensorConfig dataclass. -/
structure SensorConfig where
  name : String
  unit : String
  base_noise_level : ℝ := 0.01
  drift_rate : ℝ := 0.001
  failure_probability : ℝ := 0.0001
  measurement_range : ℝ × ℝ := (0, 1000)
  precision : ℕ := 3
  sampling_rate : ℝ := 1

/-- Per-sensor mutable state, mirroring the per-sensor dict of
SensorDataGenerator; a failure_countdown of none models float('inf'). -/
structure SensorState where
  drift_offset : ℝ
  is_functional : Bool
  last_measurement : ℝ
  calibration_factor : ℝ
  failure_countdown : Option ℝ

/-- SensorDataGenerator._initialize_sensor_states for one sensor. The random
draws are explicit: calDraw is a standard normal sample, so that
np.random.normal(0, 0.01) is 0.01 * calDraw, and expDraw is a standard
exponential sample, so that np.random.exponential(1/p) is (1/p) * expDraw,
an exponential with rate p. -/
noncomputable def initSensorState (config : SensorConfig)
    (calDraw expDraw : ℝ) : SensorState :=
  { drift_offset := 0
  , is_functional := true
  , last_measurement := 0
  , calibration_factor := 1 + 0.01 * calDraw
  , failure_countdown :=
      if 0 < config.failure_probability
        then some ((1 / config.failure_probability) * expDraw) else none }

/-- SensorDataGenerator.repair_sensor on a known sensor id: sets the sensor
functional, zeroes its drift offset, and redraws the failure countdown as
np.random.exponential(1/p) = (1/p) * expDraw when the failure probability p
is positive, infinite otherwise. The calibration factor is not touched. -/
noncomputable def repair_sensor (config : SensorConfig) (st : SensorState)
    (expDraw : ℝ) : SensorState :=
  { st with
    is_functional := true
  , drift_offset := 0
  , failure_countdown :=
      if 0 < config.failure_probability
        then some ((1 / config.failure_probability) * expDraw) else none }

/-- Modelled from the spec: the repair behaviour claim C4 describes, in
which repair_sensor also draws a fresh calibration factor of about 1 plus a
1 percent normal error, exactly as construction does. This follows the
spec's words and is compared against the code's repair_sensor. -/
noncomputable def repairSensorClaimed (config : SensorConfig)
    (st : SensorState) (calDraw expDraw : ℝ) : SensorState :=
  { st with
    is_functional := true
  , drift_offset := 0
  , calibration_factor := 1 + 0.01 * calDraw
  , failure_countdown :=
      if 0 < config.failure_probability
        then some ((1 / config.failure_probability) * expDraw) else none }

/-- Rounding to a number of decimal places, modelling Python round(x, n) on
reals; tie-breaking (banker's rounding versus round half up) plays no role
in the claims proved here. -/
noncomputable def roundTo (precision : ℕ) (x : ℝ) : ℝ :=
  (round (x * 10 ^ precision) : ℝ) / 10 ^ precision

/-- The failure countdown after the decrement at the top of
_apply_sensor_effects (an infinite countdown stays infinite). -/
noncomputable def updatedCountdown (st : SensorState) (time_step : ℝ) :
    Option ℝ :=
  st.failure_countdown.map (fun c => c - time_step)

/-- The functional flag after the countdown check of _apply_sensor_effects:
a countdown that has reached zero forces the flag false, otherwise the
previous flag is kept. -/
noncomputable def updatedFunctional (st : SensorState) (time_step : ℝ) :
    Bool :=
  match updatedCountdown st time_step with
  | some c => if c ≤ 0 then false else st.is_functional
  | none => st.is_functional

/-- SensorDataGenerator._apply_sensor_effects. Returns the pair of measured
value and functional flag together with the updated sensor state. The
random draws are explicit standard normal samples: the failed-branch noise
np.random.normal(0, uncertainty) is uncertainty * zFail, the drift step
np.random.normal(0, drift_rate) is drift_rate * zDrift, and the measurement
noise np.random.normal(0, noise_std) is noise_std * zNoise. -/
noncomputable def applySensorEffects (config : SensorConfig)
    (st : SensorState) (true_value time_step : ℝ)
    (zFail zDrift zNoise : ℝ) : (ℝ × Bool) × SensorState :=
  if updatedFunctional st time_step = false then
    let uncertainty := min (|true_value| * 0.1) 100
    ((st.last_measurement + uncertainty * zFail, false),
      { st with
        failure_countdown := updatedCountdown st time_step
      , is_functional := false })
  else
    let value0 := true_value * st.calibration_factor
    let drift_offset := st.drift_offset + config.drift_rate * zDrift
    let value1 := value0 + drift_offset
    let noise_std := |value1| * config.base_noise_level
    let value2 := value1 + noise_std * zNoise
    let value3 :=
      min (max value2 config.measurement_range.1) config.measurement_range.2
    let value4 := roundTo config.precision value3
    ((value4, true),
      { st with
        failure_countdown := updatedCountdown st time_step
      , drift_offset := drift_offset
      , last_measurement := value4 })

/-- The sensor catalog of _initialize_sensor_configs. -/
def sensor_configs : List SensorConfig :=
  [ { name := "Accelerometer X", unit := "m/s²",
      base_noise_level := 0.005, measurement_range := (-100, 100) }
  , { name := "Accelerometer Y", unit := "m/s²",
      base_noise_level := 0.005, measurement_range := (-100, 100) }
  , { name := "Accelerometer Z", unit := "m/s²",
      base_noise_level := 0.005, measurement_range := (-100, 100) }
  , { name := "Gyroscope X", unit := "rad/s",
      base_noise_level := 0.001, measurement_range := (-10, 10) }
  , { name := "Gyroscope Y", unit := "rad/s",
      base_noise_level := 0.001, measurement_range := (-10, 10) }
  , { name := "Gyroscope Z", unit := "rad/s",
      base_noise_level := 0.001, measurement_range := (-10, 10) }
  , { name := "GPS Latitude", unit := "degrees",
      base_noise_level := 0.00001, measurement_range := (-90, 90),
      precision := 6 }
  , { name := "GPS Longitude", unit := "degrees",
      base_noise_level := 0.00001, measurement_range := (-180, 180),
      precision := 6 }
  , { name := "Altitude", unit := "meters",
      base_noise_level := 0.01, measurement_range := (100000, 1000000) }
  , { name := "Internal Temperature", unit := "°C",
      base_noise_level := 0.1, measurement_range := (-50, 50) }
  , { name := "External Temperature", unit := "°C",
      base_noise_level := 0.5, measurement_range := (-273, 200) }
  , { name := "Cabin Pressure", unit := "Pa",
      base_noise_level := 0.001, measurement_range := (50000, 110000) }
  , { name := "Radiation Level", unit := "mSv/h",
      base_noise_level := 0.05, measurement_range := (0, 10) }
  , { name := "Battery Voltage", unit := "V",
      base_noise_level := 0.01, measurement_range := (20, 30) }
  , { name := "Solar Panel Current", unit := "A",
      base_noise_level := 0.02, measurement_range := (0, 50) }
  , { name := "Power Consumption", unit := "W",
      base_noise_level := 0.01, measurement_range := (100, 2000) }
  , { name := "Fuel Level", unit := "kg",
      base_noise_level := 0.01, measurement_range := (0, 500) }
  , { name := "Thrust Magnitude", unit := "N",
      base_noise_level := 0.02, measurement_range := (0, 10000) }
  , { name := "Engine Temperature", unit := "°C",
      base_noise_level := 0.5, measurement_range := (0, 1000) }
  , { name := "Signal Strength", unit := "dBm",
      base_noise_level := 0.1, measurement_range := (-120, -30) }
  , { name := "Data Rate", unit := "Mbps",
      base_noise_level := 0.05, measurement_range := (0, 100) } ]

/-- Helper: rounding to a fixed number of decimals is monotone. -/
theorem roundTo_mono (precision : ℕ) (x y : ℝ) (hxy : x ≤ y) :
    roundTo precision x ≤ roundTo precision y := by
  unfold roundTo
  have hp : (0 : ℝ) < 10 ^ precision := by positivity
  have hmul : x * 10 ^ precision ≤ y * 10 ^ precision :=
    mul_le_mul_of_nonneg_right hxy hp.le
  have hround : round (x * 10 ^ precision) ≤ round (y * 10 ^ precision) := by
    rw [round_eq, round_eq]
    exact Int.floor_mono (by linarith)
  exact (div_le_div_iff_of_pos_right hp).mpr (Int.cast_le.mpr hround)

/-- Helper: a value exact at the given number of decimals is fixed by
rounding to that number of decimals. -/
theorem roundTo_intCast (precision : ℕ) (L : ℤ) :
    roundTo precision ((L : ℝ) / 10 ^ precision) =
      (L : ℝ) / 10 ^ precision := by
  unfold roundTo
  have hp : (10 : ℝ) ^ precision ≠ 0 := by positivity
  rw [div_mul_cancel₀ _ hp, round_intCast]

/-- Helper: np.clip keeps a value inside a nonempty range. -/
theorem clip_mem (lo hi v : ℝ) (h : lo ≤ hi) :
    lo ≤ min (max v lo) hi ∧ min (max v lo) hi ≤ hi :=
  ⟨le_min (le_max_right v lo) h, min_le_right _ _⟩

/-- A sensor range is representable when both endpoints are exact at the
config's rounding precision. -/
def rangeRepresentable (config : SensorConfig) : Prop :=
  ∃ L H : ℤ,
    config.measurement_range.1 = (L : ℝ) / 10 ^ config.precision ∧
    config.measurement_range.2 = (H : ℝ) / 10 ^ config.precision ∧
    (L : ℝ) ≤ (H : ℝ)

/-- Claim C7: every sensor in the catalog has a representable range, and for
a representable range every reading produced with the functional flag true
lies inside the inclusive measurement range, whatever the magnitudes of the
noise, drift and calibration values. -/
theorem functional_reading_within_range :
    (∀ config ∈ sensor_configs, rangeRepresentable config) ∧
    (∀ (config : SensorConfig) (st : SensorState)
        (true_value time_step zFail zDrift zNoise : ℝ),
      rangeRepresentable config →
      (applySensorEffects config st true_value time_step
          zFail zDrift zNoise).1.2 = true →
      config.measurement_range.1 ≤
          (applySensorEffects config st true_value time_step
            zFail zDrift zNoise).1.1 ∧
        (applySensorEffects config st true_value time_step
            zFail zDrift zNoise).1.1 ≤ config.measurement_range.2) := by
  constructor
  · intro config hmem
    simp only [sensor_configs, List.mem_cons, List.not_mem_nil, or_false]
      at hmem
    rcases hmem with rfl | rfl | rfl | rfl | rfl | rfl | rfl | rfl | rfl |
      rfl | rfl | rfl | rfl | rfl | rfl | rfl | rfl | rfl | rfl | rfl | rfl
    · exact ⟨-100000, 100000, by norm_num, by norm_num, by norm_num⟩
    · exact ⟨-100000, 100000, by norm_num, by norm_num, by norm_num⟩
    · exact ⟨-100000, 100000, by norm_num, by norm_num, by norm_num⟩
    · exact ⟨-10000, 10000, by norm_num, by norm_num, by norm_num⟩
    · exact ⟨-10000, 10000, by norm_num, by norm_num, by norm_num⟩
    · exact ⟨-10000, 10000, by norm_num, by norm_num, by norm_num⟩
    · exact ⟨-90000000, 90000000, by norm_num, by norm_num, by norm_num⟩
    · exact ⟨-180000000, 180000000, by norm_num, by norm_num, by norm_num⟩
    · exact ⟨100000000, 1000000000, by norm_num, by norm_num, by norm_num⟩
    · exact ⟨-50000, 50000, by norm_num, by norm_num, by norm_num⟩
    · exact ⟨-273000, 200000, by norm_num, by norm_num, by norm_num⟩
    · exact ⟨50000000, 110000000, by norm_num, by norm_num, by norm_num⟩
    · exact ⟨0, 10000, by norm_num, by norm_num, by norm_num⟩
    · exact ⟨20000, 30000, by norm_num, by norm_num, by norm_num⟩
    · exact ⟨0, 50000, by norm_num, by norm_num, by norm_num⟩
    · exact ⟨100000, 2000000, by norm_num, by norm_num, by norm_num⟩
    · exact ⟨0, 500000, by norm_num, by norm_num, by norm_num⟩
    · exact ⟨0, 10000000, by norm_num, by norm_num, by norm_num⟩
    · exact ⟨0, 1000000, by norm_num, by norm_num, by norm_num⟩
    · exact ⟨-120000, -30000, by norm_num, by norm_num, by norm_num⟩
    · exact ⟨0, 100000, by norm_num, by norm_num, by norm_num⟩
  · intro config st true_value time_step zFail zDrift zNoise hrep hok
    obtain ⟨L, H, hL, hH, hLH⟩ := hrep
    by_cases hfun : updatedFunctional st time_step = false
    · exfalso
      simp [applySensorEffects, hfun] at hok
    · simp only [applySensorEffects, hfun, if_false]
      have hp : (0 : ℝ) < 10 ^ config.precision := by positivity
      have hlohi : config.measurement_range.1 ≤ config.measurement_range.2 := by
        rw [hL, hH]
        exact (div_le_div_iff_of_pos_right hp).mpr hLH
      obtain ⟨hc1, hc2⟩ :=
        clip_mem config.measurement_range.1 config.measurement_range.2
          (true_value * st.calibration_factor +
            (st.drift_offset + config.drift_rate * zDrift) +
            |true_value * st.calibration_factor +
              (st.drift_offset + config.drift_rate * zDrift)| *
              config.base_noise_level * zNoise) hlohi
      constructor
      · have h1 := roundTo_mono config.precision _ _ hc1
        rw [hL, roundTo_intCast] at h1
        rw [hL]
        exact h1
      · have h2 := roundTo_mono config.precision _ _ hc2
        rw [hH, roundTo_intCast] at h2
        rw [hH]
        exact h2

/-- A concrete sensor config used by the concrete sensor computations, the
fuel level channel of the catalog. -/
def c4Config : SensorConfig :=
  { name := "Fuel Level", unit := "kg",
    base_noise_level := 0.01, measurement_range := (0, 500) }

/-- A concrete healthy sensor state with an infinite failure countdown. -/
def okSensorState : SensorState :=
  { drift_offset := 0
  , is_functional := true
  , last_measurement := 0
  , calibration_factor := 1
  , failure_countdown := none }

/-- Witness for C7: a concrete functional reading of the fuel level sensor
stays between 0 and 500. -/
theorem functional_reading_within_range_witness :
    c4Config.measurement_range.1 ≤
        (applySensorEffects c4Config okSensorState 5 1 0 0 0).1.1 ∧
      (applySensorEffects c4Config okSensorState 5 1 0 0 0).1.1 ≤
        c4Config.measurement_range.2 :=
  functional_reading_within_range.2 c4Config okSensorState 5 1 0 0 0
    ⟨0, 500000, by norm_num [c4Config], by norm_num [c4Config], by norm_num⟩
    rfl

/-- A concrete failed sensor state frozen at a last measurement of 0. -/
def failedSensorState : SensorState :=
  { drift_offset := 0
  , is_functional := false
  , last_measurement := 0
  , calibration_factor := 1
  , failure_countdown := none }

/-- Claim C10: while a sensor is not functional, the call outputs the last
measurement plus the scaled Gaussian noise with no clamping and no
rounding, reports FAILED, and leaves last_measurement and drift_offset
untouched; concretely the fuel sensor, failed, can output 2000, far outside
its configured range ending at 500. -/
theorem failed_sensor_frozen_output (config : SensorConfig)
    (st : SensorState) (true_value time_step zFail zDrift zNoise : ℝ)
    (hfail : st.is_functional = false) :
    (applySensorEffects config st true_value time_step
        zFail zDrift zNoise).1.1 =
      st.last_measurement + min (|true_value| * 0.1) 100 * zFail ∧
    (applySensorEffects config st true_value time_step
        zFail zDrift zNoise).1.2 = false ∧
    (applySensorEffects config st true_value time_step
        zFail zDrift zNoise).2.last_measurement = st.last_measurement ∧
    (applySensorEffects config st true_value time_step
        zFail zDrift zNoise).2.drift_offset = st.drift_offset ∧
    (applySensorEffects config st true_value time_step
        zFail zDrift zNoise).2.is_functional = false ∧
    (applySensorEffects c4Config failedSensorState 2000 1 20 0 0).1.1 =
      2000 ∧
    c4Config.measurement_range.2 = 500 := by
  have hfun : updatedFunctional st time_step = false := by
    unfold updatedFunctional
    cases h : updatedCountdown st time_step with
    | none => exact hfail
    | some c => by_cases hc : c ≤ 0 <;> simp [hc, hfail]
  have hfun2 : updatedFunctional failedSensorState 1 = false := rfl
  refine ⟨?_, ?_, ?_, ?_, ?_, ?_, rfl⟩
  · simp [applySensorEffects, hfun]
  · simp [applySensorEffects, hfun]
  · simp [applySensorEffects, hfun]
  · simp [applySensorEffects, hfun]
  · simp [applySensorEffects, hfun]
  · simp only [applySensorEffects, hfun2, if_pos]
    norm_num [failedSensorState, min_def]

/-- Witness for C10: the failed fuel sensor at concrete draws. -/
theorem failed_sensor_frozen_output_witness :
    (applySensorEffects c4Config failedSensorState 2000 1 20 0 0).1.1 =
      failedSensorState.last_measurement + min (|(2000 : ℝ)| * 0.1) 100 * 20 ∧
    (applySensorEffects c4Config failedSensorState 2000 1 20 0 0).1.2 =
      false ∧
    (applySensorEffects c4Config failedSensorState
        2000 1 20 0 0).2.last_measurement =
      failedSensorState.last_measurement ∧
    (applySensorEffects c4Config failedSensorState
        2000 1 20 0 0).2.drift_offset = failedSensorState.drift_offset ∧
    (applySensorEffects c4Config failedSensorState
        2000 1 20 0 0).2.is_functional = false ∧
    (applySensorEffects c4Config failedSensorState 2000 1 20 0 0).1.1 =
      2000 ∧
    c4Config.measurement_range.2 = 500 :=
  failed_sensor_frozen_output c4Config failedSensorState 2000 1 20 0 0 rfl

/-- Claim C5: repair_sensor zeroes the drift offset, makes the sensor
functional immediately, and redraws the failure countdown as a fresh
exponential with rate equal to the failure probability, infinite when that
probability is 0; the new countdown does not depend on the pre-repair
state. -/
theorem repair_sensor_contract (config : SensorConfig)
    (st st' : SensorState) (expDraw : ℝ) :
    (repair_sensor config st expDraw).drift_offset = 0 ∧
    (repair_sensor config st expDraw).is_functional = true ∧
    (repair_sensor config st expDraw).failure_countdown =
      (if 0 < config.failure_probability
        then some ((1 / config.failure_probability) * expDraw) else none) ∧
    (repair_sensor config st expDraw).failure_countdown =
      (repair_sensor config st' expDraw).failure_countdown :=
  ⟨rfl, rfl, rfl, rfl⟩

/-- A concrete failed, badly calibrated sensor state before a repair. -/
def c4State : SensorState :=
  { drift_offset := 5
  , is_functional := false
  , last_measurement := 7
  , calibration_factor := 42
  , failure_countdown := some (-3) }

/-- Counterexample to claim C4 as stated: repairing a sensor whose
calibration factor is 42 leaves the calibration factor at 42, while the
claimed behaviour, modelled from the spec as repairSensorClaimed, would
replace it with the freshly drawn 1 + 0.01 * 0.5. -/
theorem repair_keeps_calibration_cex :
    (repair_sensor c4Config c4State 3).calibration_factor = 42 ∧
    (repairSensorClaimed c4Config c4State 0.5 3).calibration_factor =
      1 + 0.01 * 0.5 ∧
    (repair_sensor c4Config c4State 3).calibration_factor ≠
      (repairSensorClaimed c4Config c4State 0.5 3).calibration_factor := by
  refine ⟨rfl, rfl, ?_⟩
  norm_num [repair_sensor, repairSensorClaimed, c4State]

/-- Claim C4, amended: the calibration factor is drawn once at construction
as 1 plus a 1 percent scaled normal sample, and repair_sensor leaves the
calibration factor unchanged. -/
theorem calibration_fixed_after_construction (config : SensorConfig)
    (st : SensorState) (expDraw calDraw expDraw' : ℝ) :
    (repair_sensor config st expDraw).calibration_factor =
      st.calibration_factor ∧
    (initSensorState config calDraw expDraw').calibration_factor =
      1 + 0.01 * calDraw :=
  ⟨rfl, rfl⟩

/-- Lowercasing of a string, modelling Python str.lower() on the ASCII
format names compared by export_data. -/
def strLower (s : String) : String := String.mk (s.data.map Char.toLower)

/-- The lowercase csv format name. -/
def fmtCsv : String := "csv"

/-- The lowercase json format name. -/
def fmtJson : String := "json"

/-- The lowercase parquet format name. -/
def fmtParquet : String := "parquet"

/-- Observable outcome of SensorDataGenerator.export_data: an early return
with only a warning when there is no data, a file written with the given
number of rows, or a raised ValueError reporting the unsupported format.
No file is written except in the wrote outcome. -/
inductive ExportResult where
  | noData : ExportResult
  | wrote : String → ℕ → ExportResult
  | invalidFormat : String → ExportResult
deriving DecidableEq

/-- SensorDataGenerator.export_data over an abstract row type: empty
history returns early; otherwise the lowercased format selects the writer,
and any other format raises ValueError before anything is written. -/
def export_data {α : Type} (data_history : List α) (format : String) :
    ExportResult :=
  if data_history.isEmpty then ExportResult.noData
  else if strLower format = fmtCsv then
    ExportResult.wrote fmtCsv data_history.length
  else if strLower format = fmtJson then
    ExportResult.wrote fmtJson data_history.length
  else if strLower format = fmtParquet then
    ExportResult.wrote fmtParquet data_history.length
  else ExportResult.invalidFormat format

/-- Whether an export outcome wrote a file. -/
def fileWritten : ExportResult → Bool
  | ExportResult.wrote _ _ => true
  | _ => false

/-- The unsupported format name xml used by the concrete computations. -/
def fmtXml : String := "xml"

/-- Counterexample to claim C9 as stated: calling export_data with the
unsupported format xml but an empty data history returns early with only a
warning, and no invalid-argument error is reported. -/
theorem export_empty_history_cex :
    export_data ([] : List ℕ) fmtXml = ExportResult.noData ∧
    strLower fmtXml ≠ fmtCsv ∧
    strLower fmtXml ≠ fmtJson ∧
    strLower fmtXml ≠ fmtParquet ∧
    export_data ([] : List ℕ) fmtXml ≠ ExportResult.invalidFormat fmtXml := by
  refine ⟨rfl, by decide, by decide, by decide, by decide⟩

/-- Claim C9, amended: when the data history is nonempty, export_data with
a format whose lowercasing is none of csv, json and parquet reports the
invalid-argument error for that format and writes no file. -/
theorem export_invalid_format_rejected {α : Type} (h : List α)
    (format : String) (hne : h.isEmpty = false)
    (hcsv : strLower format ≠ fmtCsv) (hjson : strLower format ≠ fmtJson)
    (hparquet : strLower format ≠ fmtParquet) :
    export_data h format = ExportResult.invalidFormat format ∧
    fileWritten (export_data h format) = false := by
  unfold export_data
  rw [hne]
  simp [hcsv, hjson, hparquet, fileWritten]

/-- Witness for the amended C9: one row of history and the format xml. -/
theorem export_invalid_format_rejected_witness :
    export_data ([0] : List ℕ) fmtXml = ExportResult.invalidFormat fmtXml ∧
    fileWritten (export_data ([0] : List ℕ) fmtXml) = false :=
  export_invalid_format_rejected [0] fmtXml rfl (by decide) (by decide)
    (by decide)

end Netra
